import Mathlib

/-!
Shallow embedding of `src/testbed/chaos/chaos_runner.py` (pf-testbed):
the chaos-injection and backpressure-gating engine.

Python floats are modelled as `Rat` (all arithmetic the runner performs on
them — subtraction of integer constants, `max` with 0, comparisons — is
exact), Python `int` timestamps/durations as `Int`, the `Dict[str, ChaosFault]`
registry `active_faults` as an association list inserted in dict order, and
the mutable fields of the `ChaosRunner` object as a `RunnerState` record
threaded through the translated methods.  The asyncio tasks the runner
spawns (`_cleanup_fault_after_duration` expiry timers and the single
`_wait_for_stabilization` task per backpressure activation) are modelled by
the bookkeeping fields `pending_expiries` and `pending_checks`: creating a
task appends/increments, a task firing removes/decrements in the scheduler
`step`.  Prometheus counters that the code reads back
(`CHAOS_FAULTS_INJECTED`, `BACKPRESSURE_ACTIVATIONS`) are Nat fields, and
the `SIGUSR1` signals sent to the k6 load-generator process are logged in
`k6_signals`.
-/

namespace ChaosRunnerModel

/-- Configuration for a chaos fault (`ChaosFault` dataclass, chaos_runner.py:52-62). -/
structure ChaosFault where
  name : String
  fault_type : String
  severity : String
  duration_seconds : Int
  probability : Rat
  parameters : List (String × String)
  slo_impact : List String
  deriving DecidableEq, Repr

/-- Service Level Objective gate configuration (`SLOGate` dataclass, chaos_runner.py:65-75). -/
structure SLOGate where
  name : String
  metric : String
  threshold : Rat
  operator : String
  window_seconds : Int
  severity : String
  backpressure_trigger : Bool
  deriving DecidableEq, Repr

/-- Complete chaos test configuration (`ChaosTest` dataclass, chaos_runner.py:78-90). -/
structure ChaosTest where
  test_id : String
  name : String
  description : String
  duration_minutes : Int
  load_profile : String
  faults : List ChaosFault
  slo_gates : List SLOGate
  backpressure_config : List (String × String)
  k6_config : List (String × String)
  deriving DecidableEq, Repr

/-- One entry of `self.slo_violations` as appended by `_record_slo_violation`
(chaos_runner.py:375-384); the constant `"violated"` string is omitted. -/
structure ViolationRecord where
  timestamp : Int
  slo_name : String
  metric : String
  threshold : Rat
  current_value : Rat
  operator : String
  severity : String
  deriving DecidableEq, Repr

/-- The mutable state of a `ChaosRunner` object (chaos_runner.py:112-125)
together with the task/counter bookkeeping described in the file header. -/
structure RunnerState where
  active_faults : List (String × ChaosFault)
  slo_violations : List ViolationRecord
  backpressure_active : Bool
  health_score : Rat
  faults_injected_counter : Nat
  bp_counter_total : Nat
  k6_signals : List String
  pending_checks : Nat
  pending_expiries : List (Int × ChaosFault)
  k6_running : Bool
  deriving DecidableEq, Repr

/-- State of a `ChaosRunner` right after `__init__` and `_start_k6_load`
(chaos_runner.py:112-125): empty registry, no violations, backpressure off,
health score 100, k6 process running. -/
def initState : RunnerState :=
  { active_faults := []
    slo_violations := []
    backpressure_active := false
    health_score := 100
    faults_injected_counter := 0
    bp_counter_total := 0
    k6_signals := []
    pending_checks := 0
    pending_expiries := []
    k6_running := true }

/-- Membership test `name in self.active_faults` on the dict modelled as an
association list. -/
def registryHas (reg : List (String × ChaosFault)) (name : String) : Bool :=
  reg.any (fun p => p.1 == name)

/-- Deletion `del self.active_faults[name]` on the dict modelled as an
association list. -/
def registryRemove (reg : List (String × ChaosFault)) (name : String) :
    List (String × ChaosFault) :=
  reg.filter (fun p => !(p.1 == name))

/-- `ChaosRunner._evaluate_slo_violation` (chaos_runner.py:359-371); the
Python `Optional[str]` result (`"violated"` / `None`) is a Bool. -/
def evaluate_slo_violation (slo : SLOGate) (value : Rat) : Bool :=
  if slo.operator == ">" then decide (value > slo.threshold)
  else if slo.operator == "<" then decide (value < slo.threshold)
  else if slo.operator == ">=" then decide (value ≥ slo.threshold)
  else if slo.operator == "<=" then decide (value ≤ slo.threshold)
  else if slo.operator == "==" then decide (value = slo.threshold)
  else false

/-- `ChaosRunner._record_slo_violation` (chaos_runner.py:373-399): append the
violation record and decrement the health score, clamped at 0. -/
def record_slo_violation (now : Int) (slo : SLOGate) (value : Rat)
    (s : RunnerState) : RunnerState :=
  { s with
    slo_violations := s.slo_violations ++
      [{ timestamp := now
         slo_name := slo.name
         metric := slo.metric
         threshold := slo.threshold
         current_value := value
         operator := slo.operator
         severity := slo.severity }]
    health_score :=
      if slo.severity == "critical" then max 0 (s.health_score - 20)
      else max 0 (s.health_score - 5) }

/-- `ChaosRunner._apply_backpressure_actions` (chaos_runner.py:412-428): send
`SIGUSR1` to the k6 process when it is still running, and spawn one
`_wait_for_stabilization` task (modelled by `pending_checks + 1`). -/
def apply_backpressure_actions (s : RunnerState) : RunnerState :=
  let s1 := if s.k6_running then { s with k6_signals := s.k6_signals ++ ["SIGUSR1"] } else s
  { s1 with pending_checks := s1.pending_checks + 1 }

/-- `ChaosRunner._activate_backpressure` (chaos_runner.py:401-410): a no-op
when backpressure is already active, otherwise set the flag, bump the
`BACKPRESSURE_ACTIVATIONS` counter and apply the backpressure actions. -/
def activate_backpressure (s : RunnerState) : RunnerState :=
  if s.backpressure_active then s
  else
    apply_backpressure_actions
      { s with backpressure_active := true, bp_counter_total := s.bp_counter_total + 1 }

/-- `ChaosRunner._check_slo_gates` (chaos_runner.py:349-357): for every gate
whose `metric` matches the polled metric name, evaluate the gate against the
value; on violation record it, and when the gate is a backpressure trigger
invoke `_activate_backpressure`. -/
def check_slo_gates (gates : List SLOGate) (now : Int) (metric_name : String)
    (current_value : Rat) (s : RunnerState) : RunnerState :=
  gates.foldl
    (fun st slo =>
      if slo.metric == metric_name then
        if evaluate_slo_violation slo current_value then
          let st1 := record_slo_violation now slo current_value st
          if slo.backpressure_trigger then activate_backpressure st1 else st1
        else st
      else st)
    s

/-- `ChaosRunner._collect_current_metrics` (chaos_runner.py:313-347): one
poll of the two Prometheus queries.  `p95 = none` / `err = none` model the
paths where a query fails, returns non-200 or has no result data (then the
corresponding `_check_slo_gates` call is skipped).  Only the two metric
names `"response_time_p95"` and `"error_rate"` are ever polled. -/
def collect_current_metrics (gates : List SLOGate) (now : Int)
    (p95 err : Option Rat) (s : RunnerState) : RunnerState :=
  let s1 := match p95 with
    | some v => check_slo_gates gates now "response_time_p95" v s
    | none => s
  match err with
  | some v => check_slo_gates gates now "error_rate" v s1
  | none => s1

/-- `ChaosRunner._check_slo_stabilization` (chaos_runner.py:442-451): a
violation counts as recent when
`(datetime.now() - timestamp).seconds < 300`; `timedelta.seconds` is the
seconds component of the elapsed time, i.e. `(now - timestamp) % 86400`
(Python `%`, matching `Int.emod` for the positive modulus 86400), not the
total elapsed seconds. -/
def check_slo_stabilization (now : Int) (s : RunnerState) : Bool :=
  (s.slo_violations.filter (fun v => decide ((now - v.timestamp) % 86400 < 300))).length == 0

/-- `ChaosRunner._deactivate_backpressure` (chaos_runner.py:453-460): clear
the flag and bump the `BACKPRESSURE_ACTIVATIONS` counter (the code sends no
signal of any kind to the k6 process here). -/
def deactivate_backpressure (s : RunnerState) : RunnerState :=
  { s with backpressure_active := false, bp_counter_total := s.bp_counter_total + 1 }

/-- Body of `ChaosRunner._wait_for_stabilization` after its 60 s sleep
(chaos_runner.py:434-440): deactivate backpressure when stabilized,
otherwise do nothing (in particular, no new stabilization check is
scheduled). -/
def wait_for_stabilization (now : Int) (s : RunnerState) : RunnerState :=
  if check_slo_stabilization now s then deactivate_backpressure s else s

/-- `ChaosRunner._inject_fault` (chaos_runner.py:480-507).  The whole body
runs in a `try`; `apply_ok = false` models the fault-type applier raising
(the `except` branch only logs), in which case nothing is registered, no
expiry task is scheduled and the `CHAOS_FAULTS_INJECTED` counter is not
incremented.  On success the fault is marked active, one
`_cleanup_fault_after_duration` task is scheduled for
`now + duration_seconds`, and the counter is incremented. -/
def inject_fault (apply_ok : Bool) (now : Int) (fault : ChaosFault)
    (s : RunnerState) : RunnerState :=
  if apply_ok then
    { s with
      active_faults := s.active_faults ++ [(fault.name, fault)]
      pending_expiries := s.pending_expiries ++ [(now + fault.duration_seconds, fault)]
      faults_injected_counter := s.faults_injected_counter + 1 }
  else s

/-- `ChaosRunner._inject_chaos_faults` (chaos_runner.py:473-478): for each
configured fault, `roll fault` models `random.random() < fault.probability`;
a fault whose name is already in `active_faults` is skipped. -/
def inject_chaos_faults (faults : List ChaosFault) (roll apply_ok : ChaosFault → Bool)
    (now : Int) (s : RunnerState) : RunnerState :=
  faults.foldl
    (fun st fault =>
      if roll fault then
        if !(registryHas st.active_faults fault.name) then
          inject_fault (apply_ok fault) now fault st
        else st
      else st)
    s

/-- One iteration of `ChaosRunner._run_chaos_loop` (chaos_runner.py:462-471):
when backpressure is active the tick does nothing at all, otherwise it runs
`_inject_chaos_faults`. -/
def run_chaos_loop_tick (faults : List ChaosFault) (roll apply_ok : ChaosFault → Bool)
    (now : Int) (s : RunnerState) : RunnerState :=
  if s.backpressure_active then s
  else inject_chaos_faults faults roll apply_ok now s

/-- Body of `ChaosRunner._cleanup_fault_after_duration` after its sleep
(chaos_runner.py:604-611): delete the fault from the registry when it is
still there. -/
def cleanup_fault_after_duration (fault : ChaosFault) (s : RunnerState) : RunnerState :=
  if registryHas s.active_faults fault.name then
    { s with active_faults := registryRemove s.active_faults fault.name }
  else s

/-- Removal of one fired `_cleanup_fault_after_duration` task from the
pending-expiry bookkeeping list. -/
def dropFirstExpiry : List (Int × ChaosFault) → String → List (Int × ChaosFault)
  | [], _ => []
  | p :: rest, n => if p.2.name == n then rest else p :: dropFirstExpiry rest n

/-- `ChaosRunner._cleanup` (chaos_runner.py:637-661): terminate the k6
process, then run `_cleanup_fault_after_duration` for every fault in a
snapshot of the registry keys. -/
def cleanup (s : RunnerState) : RunnerState :=
  let s1 := { s with k6_running := false }
  (s1.active_faults.map Prod.snd).foldl (fun st f => cleanup_fault_after_duration f st) s1

/-- The fields of `TestResult` (chaos_runner.py:93-106) that
`_generate_test_results` computes from the runner state. -/
structure TestResult where
  test_id : String
  total_faults_injected : Nat
  slo_violations : Nat
  backpressure_activations : Nat
  system_health_score : Rat
  deriving DecidableEq, Repr

/-- `ChaosRunner._generate_test_results` (chaos_runner.py:663-698):
`fault_results` is built from the *currently active* faults, and
`total_faults_injected` is its length; `backpressure_activations` is
`BACKPRESSURE_ACTIVATIONS._value.sum()`, the counter summed over all label
pairs (activations and deactivations alike). -/
def generate_test_results (cfg : ChaosTest) (s : RunnerState) : TestResult :=
  { test_id := cfg.test_id
    total_faults_injected := s.active_faults.length
    slo_violations := s.slo_violations.length
    backpressure_activations := s.bp_counter_total
    system_health_score := s.health_score }

/-- The suspension points at which the cooperative asyncio tasks of a run
interleave: a 30 s chaos-loop tick, a 10 s metrics poll, an expiry task
firing, the stabilization-check task firing, and the final cleanup sweep. -/
inductive Event where
  | chaosTick (roll apply_ok : ChaosFault → Bool) (now : Int)
  | metricsTick (now : Int) (p95 err : Option Rat)
  | expiryFire (fault : ChaosFault)
  | stabilizationFire (now : Int)
  | cleanupSweep

/-- Small-step semantics of one event against the shared runner state; task
completion updates the `pending_expiries` / `pending_checks` bookkeeping. -/
def step (cfg : ChaosTest) (e : Event) (s : RunnerState) : RunnerState :=
  match e with
  | .chaosTick roll apply_ok now => run_chaos_loop_tick cfg.faults roll apply_ok now s
  | .metricsTick now p95 err => collect_current_metrics cfg.slo_gates now p95 err s
  | .expiryFire fault =>
      { cleanup_fault_after_duration fault s with
        pending_expiries := dropFirstExpiry s.pending_expiries fault.name }
  | .stabilizationFire now =>
      { wait_for_stabilization now s with pending_checks := s.pending_checks - 1 }
  | .cleanupSweep => cleanup s

/-- A run: fold the events of one execution over the initial state. -/
def run (cfg : ChaosTest) (events : List Event) : RunnerState :=
  events.foldl (fun s e => step cfg e s) initState

/-- One entry of the `faults` list of the YAML document consumed by
`load_chaos_config` (chaos_runner.py:708-718); `none` models an absent key. -/
structure FaultYaml where
  name : Option String
  type : Option String
  severity : Option String
  duration_seconds : Option Int
  probability : Option Rat
  parameters : Option (List (String × String))
  slo_impact : Option (List String)
  deriving DecidableEq, Repr

/-- One entry of the `slo_gates` list of the YAML document
(chaos_runner.py:722-732). -/
structure SloYaml where
  name : Option String
  metric : Option String
  threshold : Option Rat
  operator : Option String
  window_seconds : Option Int
  severity : Option String
  backpressure_trigger : Option Bool
  deriving DecidableEq, Repr

/-- The top-level YAML document consumed by `load_chaos_config`
(chaos_runner.py:701-744). -/
structure ConfigYaml where
  name : Option String
  description : Option String
  duration_minutes : Option Int
  load_profile : Option String
  faults : Option (List FaultYaml)
  slo_gates : Option (List SloYaml)
  backpressure_config : Option (List (String × String))
  k6_config : Option (List (String × String))
  deriving DecidableEq, Repr

/-- Python `d[key]`: raises `KeyError` when the key is absent. -/
def getKey {α : Type} (v : Option α) (key : String) : Except String α :=
  match v with
  | some a => Except.ok a
  | none => Except.error ("KeyError: " ++ key)

/-- Construction of one `ChaosFault` inside `load_chaos_config`
(chaos_runner.py:709-717): required keys `name`, `type`, `severity`,
`duration_seconds`, `probability`; `parameters` and `slo_impact` default.
No value-range validation of any kind is performed. -/
def parse_fault (d : FaultYaml) : Except String ChaosFault := do
  let name ← getKey d.name "name"
  let fault_type ← getKey d.type "type"
  let severity ← getKey d.severity "severity"
  let duration_seconds ← getKey d.duration_seconds "duration_seconds"
  let probability ← getKey d.probability "probability"
  pure
    { name := name
      fault_type := fault_type
      severity := severity
      duration_seconds := duration_seconds
      probability := probability
      parameters := d.parameters.getD []
      slo_impact := d.slo_impact.getD [] }

/-- Construction of one `SLOGate` inside `load_chaos_config`
(chaos_runner.py:723-731): required keys `name`, `metric`, `threshold`,
`operator`, `severity`; `window_seconds` defaults to 60 and
`backpressure_trigger` to `false`. -/
def parse_slo (d : SloYaml) : Except String SLOGate := do
  let name ← getKey d.name "name"
  let metric ← getKey d.metric "metric"
  let threshold ← getKey d.threshold "threshold"
  let operator ← getKey d.operator "operator"
  let severity ← getKey d.severity "severity"
  pure
    { name := name
      metric := metric
      threshold := threshold
      operator := operator
      window_seconds := d.window_seconds.getD 60
      severity := severity
      backpressure_trigger := d.backpressure_trigger.getD false }

/-- `load_chaos_config` (chaos_runner.py:701-744): parse the fault entries,
then the gate entries, then build the `ChaosTest` (its fresh `uuid4` test id
is modelled by a fixed placeholder string).  The only failures are missing
required keys (`KeyError`); the values of `probability` and
`duration_seconds` are accepted unchecked. -/
def load_chaos_config (cfg : ConfigYaml) : Except String ChaosTest := do
  let faults ← (cfg.faults.getD []).mapM parse_fault
  let slo_gates ← (cfg.slo_gates.getD []).mapM parse_slo
  let name ← getKey cfg.name "name"
  let duration_minutes ← getKey cfg.duration_minutes "duration_minutes"
  pure
    { test_id := "uuid4"
      name := name
      description := cfg.description.getD ""
      duration_minutes := duration_minutes
      load_profile := cfg.load_profile.getD "ramp"
      faults := faults
      slo_gates := slo_gates
      backpressure_config := cfg.backpressure_config.getD []
      k6_config := cfg.k6_config.getD [] }

/-- The registry-uniqueness invariant: keys of `active_faults` are pairwise
distinct (so at most one `ActiveFault` per `FaultDefinition.name`). -/
def RegOk (s : RunnerState) : Prop :=
  (s.active_faults.map Prod.fst).Nodup

/-- A critical SLO gate on the p95 metric that triggers backpressure, used as
a concrete instance in witnesses and counterexamples. -/
def sloCrit : SLOGate :=
  { name := "p95_gate", metric := "response_time_p95", threshold := 1,
    operator := ">", window_seconds := 60, severity := "critical",
    backpressure_trigger := true }

/-- A concrete CPU-hog fault definition. -/
def faultCpu : ChaosFault :=
  { name := "cpu", fault_type := "cpu_hog", severity := "critical",
    duration_seconds := 5, probability := 1, parameters := [], slo_impact := [] }

/-- A concrete test configuration with one fault and one gate. -/
def cfgOne : ChaosTest :=
  { test_id := "test", name := "t", description := "", duration_minutes := 1,
    load_profile := "ramp", faults := [faultCpu], slo_gates := [sloCrit],
    backpressure_config := [], k6_config := [] }

/-- The violation record `sloCrit` produces at time `t` for observed value 2. -/
def recAt (t : Int) : ViolationRecord :=
  { timestamp := t, slo_name := "p95_gate", metric := "response_time_p95",
    threshold := 1, current_value := 2, operator := ">", severity := "critical" }

/-- A runner state with backpressure active and nothing else going on. -/
def sActive : RunnerState :=
  { initState with backpressure_active := true }

/-- A runner state in the backpressure-active phase whose only violation
record is more than a day old (86500 s before the check), with the single
stabilization-check task of the activation episode still pending. -/
def sOldViolation : RunnerState :=
  { initState with
    backpressure_active := true
    pending_checks := 1
    slo_violations := [recAt 0] }

/-- A backpressure-active runner state with an empty violation list and the
single stabilization-check task of the episode still pending. -/
def sNoViolation : RunnerState :=
  { initState with
    backpressure_active := true
    pending_checks := 1 }

/-- A backpressure-active runner state whose violation record (20 s before
the check at t = 60) is still inside the lookback window. -/
def sRecentViolation : RunnerState :=
  { initState with
    backpressure_active := true
    pending_checks := 1
    slo_violations := [recAt 40] }

/-- A fault entry whose `probability` is 3/2 (outside [0,1]) and whose
`duration_seconds` is 0 (not positive), with every required key present. -/
def faultYamlBad : FaultYaml :=
  { name := some "bad", type := some "cpu_hog", severity := some "low",
    duration_seconds := some 0, probability := some (3/2),
    parameters := none, slo_impact := none }

/-- A configuration document containing `faultYamlBad` and all required
top-level keys. -/
def cfgOutOfRange : ConfigYaml :=
  { name := some "bad_config", description := none, duration_minutes := some 10,
    load_profile := none, faults := some [faultYamlBad], slo_gates := none,
    backpressure_config := none, k6_config := none }

/-! Helper lemmas about the active-fault registry. -/

theorem registryHas_iff (reg : List (String × ChaosFault)) (n : String) :
    registryHas reg n = true ↔ n ∈ reg.map Prod.fst := by
  simp [registryHas, List.any_eq_true, List.mem_map, beq_iff_eq]

theorem registryHas_remove_self (reg : List (String × ChaosFault)) (n : String) :
    registryHas (registryRemove reg n) n = false := by
  have hne : ¬ (registryHas (registryRemove reg n) n = true) := by
    rw [registryHas_iff]
    intro hmem
    rcases List.mem_map.mp hmem with ⟨p, hp, hpn⟩
    rcases List.mem_filter.mp hp with ⟨_, hq⟩
    simp [hpn] at hq
  simpa using hne

/-- Keys of the registry stay duplicate-free under deletion. -/
theorem nodup_registryRemove (reg : List (String × ChaosFault)) (n : String)
    (h : (reg.map Prod.fst).Nodup) :
    ((registryRemove reg n).map Prod.fst).Nodup :=
  ((List.filter_sublist reg).map Prod.fst).nodup h

theorem regOk_inject_fault (ok : Bool) (now : Int) (fault : ChaosFault)
    (s : RunnerState) (hs : RegOk s)
    (habs : registryHas s.active_faults fault.name = false) :
    RegOk (inject_fault ok now fault s) := by
  cases ok with
  | false => simpa [inject_fault] using hs
  | true =>
    have hmem : fault.name ∉ s.active_faults.map Prod.fst := by
      intro hmem
      rw [← registryHas_iff] at hmem
      simp [habs] at hmem
    simp only [inject_fault, RegOk, if_true, List.map_append]
    exact List.Nodup.append hs (List.nodup_singleton _)
      (by simpa [List.disjoint_singleton] using hmem)

theorem regOk_inject_chaos_faults (faults : List ChaosFault)
    (roll apply_ok : ChaosFault → Bool) (now : Int) (s : RunnerState)
    (hs : RegOk s) : RegOk (inject_chaos_faults faults roll apply_ok now s) := by
  induction faults generalizing s with
  | nil => simpa [inject_chaos_faults] using hs
  | cons fault rest ih =>
    simp only [inject_chaos_faults, List.foldl_cons]
    apply ih
    by_cases hroll : roll fault = true
    · by_cases hhas : registryHas s.active_faults fault.name = true
      · simp [hroll, hhas, hs]
      · simp only [Bool.not_eq_true] at hhas
        simp only [hroll, hhas, if_true, Bool.not_false]
        exact regOk_inject_fault _ _ _ _ hs hhas
    · simp only [Bool.not_eq_true] at hroll
      simpa [hroll] using hs

theorem regOk_cleanup_fault (fault : ChaosFault) (s : RunnerState) (hs : RegOk s) :
    RegOk (cleanup_fault_after_duration fault s) := by
  unfold cleanup_fault_after_duration
  split
  · exact nodup_registryRemove _ _ hs
  · exact hs

theorem regOk_foldl_cleanup (fs : List ChaosFault) (s : RunnerState) (hs : RegOk s) :
    RegOk (fs.foldl (fun st f => cleanup_fault_after_duration f st) s) := by
  induction fs generalizing s with
  | nil => simpa using hs
  | cons f rest ih =>
    simp only [List.foldl_cons]
    exact ih _ (regOk_cleanup_fault f s hs)

theorem regOk_cleanup (s : RunnerState) (hs : RegOk s) : RegOk (cleanup s) := by
  unfold cleanup
  exact regOk_foldl_cleanup _ _ hs

/-! Operations of the SLO evaluator and backpressure controller leave the
active-fault registry untouched. -/

theorem active_faults_record (now : Int) (slo : SLOGate) (value : Rat) (s : RunnerState) :
    (record_slo_violation now slo value s).active_faults = s.active_faults := rfl

theorem active_faults_apply_backpressure (s : RunnerState) :
    (apply_backpressure_actions s).active_faults = s.active_faults := by
  unfold apply_backpressure_actions
  dsimp only
  split <;> rfl

theorem active_faults_activate (s : RunnerState) :
    (activate_backpressure s).active_faults = s.active_faults := by
  unfold activate_backpressure
  split
  · rfl
  · rw [active_faults_apply_backpressure]

theorem active_faults_check_slo_gates (gates : List SLOGate) (now : Int)
    (metric_name : String) (value : Rat) (s : RunnerState) :
    (check_slo_gates gates now metric_name value s).active_faults = s.active_faults := by
  induction gates generalizing s with
  | nil => rfl
  | cons slo rest ih =>
    simp only [check_slo_gates, List.foldl_cons] at ih ⊢
    rw [ih]
    split
    · split
      · split
        · rw [active_faults_activate, active_faults_record]
        · rw [active_faults_record]
      · rfl
    · rfl

theorem active_faults_collect (gates : List SLOGate) (now : Int)
    (p95 err : Option Rat) (s : RunnerState) :
    (collect_current_metrics gates now p95 err s).active_faults = s.active_faults := by
  unfold collect_current_metrics
  cases p95 <;> cases err <;> simp [active_faults_check_slo_gates]

theorem active_faults_wait (now : Int) (s : RunnerState) :
    (wait_for_stabilization now s).active_faults = s.active_faults := by
  unfold wait_for_stabilization
  split <;> rfl

theorem regOk_step (cfg : ChaosTest) (e : Event) (s : RunnerState) (hs : RegOk s) :
    RegOk (step cfg e s) := by
  cases e with
  | chaosTick roll apply_ok now =>
    simp only [step, run_chaos_loop_tick]
    split
    · exact hs
    · exact regOk_inject_chaos_faults _ _ _ _ _ hs
  | metricsTick now p95 err =>
    show ((collect_current_metrics cfg.slo_gates now p95 err s).active_faults.map Prod.fst).Nodup
    rw [active_faults_collect]
    exact hs
  | expiryFire fault =>
    show ((cleanup_fault_after_duration fault s).active_faults.map Prod.fst).Nodup
    exact regOk_cleanup_fault fault s hs
  | stabilizationFire now =>
    show ((wait_for_stabilization now s).active_faults.map Prod.fst).Nodup
    rw [active_faults_wait]
    exact hs
  | cleanupSweep => exact regOk_cleanup s hs

theorem regOk_run (cfg : ChaosTest) (events : List Event) : RegOk (run cfg events) := by
  unfold run
  have h : ∀ s : RunnerState, RegOk s →
      RegOk (events.foldl (fun s e => step cfg e s) s) := by
    induction events with
    | nil => exact fun s hs => hs
    | cons e rest ih =>
      intro s hs
      exact ih _ (regOk_step cfg e s hs)
  exact h initState (by simp [RegOk, initState])

/-! Helper lemmas about the health score. -/

theorem clamp_nonneg_le (h c : Rat) (h0 : 0 ≤ h) (hc : 0 ≤ c) :
    0 ≤ max 0 (h - c) ∧ max 0 (h - c) ≤ h :=
  ⟨le_max_left 0 _, max_le h0 (sub_le_self h hc)⟩

theorem health_record (now : Int) (slo : SLOGate) (value : Rat) (s : RunnerState)
    (h0 : 0 ≤ s.health_score) :
    0 ≤ (record_slo_violation now slo value s).health_score ∧
      (record_slo_violation now slo value s).health_score ≤ s.health_score := by
  unfold record_slo_violation
  dsimp only
  split
  · exact clamp_nonneg_le _ _ h0 (by norm_num)
  · exact clamp_nonneg_le _ _ h0 (by norm_num)

theorem health_apply_backpressure (s : RunnerState) :
    (apply_backpressure_actions s).health_score = s.health_score := by
  unfold apply_backpressure_actions
  dsimp only
  split <;> rfl

theorem health_activate (s : RunnerState) :
    (activate_backpressure s).health_score = s.health_score := by
  unfold activate_backpressure
  split
  · rfl
  · rw [health_apply_backpressure]

theorem health_check_slo_gates (gates : List SLOGate) (now : Int)
    (metric_name : String) (value : Rat) (s : RunnerState) (h0 : 0 ≤ s.health_score) :
    0 ≤ (check_slo_gates gates now metric_name value s).health_score ∧
      (check_slo_gates gates now metric_name value s).health_score ≤ s.health_score := by
  induction gates generalizing s with
  | nil => exact ⟨h0, le_refl _⟩
  | cons slo rest ih =>
    simp only [check_slo_gates, List.foldl_cons] at ih ⊢
    by_cases hm : slo.metric == metric_name
    · by_cases hv : evaluate_slo_violation slo value
      · have hrec := health_record now slo value s h0
        by_cases ht : slo.backpressure_trigger
        · simp only [hm, hv, ht, if_true]
          have hact : (activate_backpressure (record_slo_violation now slo value s)).health_score
              = (record_slo_violation now slo value s).health_score := health_activate _
          have := ih (activate_backpressure (record_slo_violation now slo value s))
            (by rw [hact]; exact hrec.1)
          exact ⟨this.1, le_trans this.2 (by rw [hact]; exact hrec.2)⟩
        · simp only [hm, hv, ht, if_true, if_false]
          have := ih (record_slo_violation now slo value s) hrec.1
          exact ⟨this.1, le_trans this.2 hrec.2⟩
      · simp only [hm, hv, if_true, if_false]
        exact ih s h0
    · simp only [hm, if_false]
      exact ih s h0

theorem health_collect (gates : List SLOGate) (now : Int) (p95 err : Option Rat)
    (s : RunnerState) (h0 : 0 ≤ s.health_score) :
    0 ≤ (collect_current_metrics gates now p95 err s).health_score ∧
      (collect_current_metrics gates now p95 err s).health_score ≤ s.health_score := by
  unfold collect_current_metrics
  cases p95 with
  | none =>
    cases err with
    | none => exact ⟨h0, le_refl _⟩
    | some v => exact health_check_slo_gates gates now "error_rate" v s h0
  | some v =>
    have h1 := health_check_slo_gates gates now "response_time_p95" v s h0
    cases err with
    | none => exact h1
    | some w =>
      have h2 := health_check_slo_gates gates now "error_rate" w _ h1.1
      exact ⟨h2.1, le_trans h2.2 h1.2⟩

theorem health_inject_fault (ok : Bool) (now : Int) (fault : ChaosFault) (s : RunnerState) :
    (inject_fault ok now fault s).health_score = s.health_score := by
  unfold inject_fault
  split <;> rfl

theorem health_inject_chaos_faults (faults : List ChaosFault)
    (roll apply_ok : ChaosFault → Bool) (now : Int) (s : RunnerState) :
    (inject_chaos_faults faults roll apply_ok now s).health_score = s.health_score := by
  induction faults generalizing s with
  | nil => rfl
  | cons fault rest ih =>
    simp only [inject_chaos_faults, List.foldl_cons] at ih ⊢
    rw [ih]
    split
    · split
      · rw [health_inject_fault]
      · rfl
    · rfl

theorem health_cleanup_fault (fault : ChaosFault) (s : RunnerState) :
    (cleanup_fault_after_duration fault s).health_score = s.health_score := by
  unfold cleanup_fault_after_duration
  split <;> rfl

theorem health_cleanup (s : RunnerState) :
    (cleanup s).health_score = s.health_score := by
  unfold cleanup
  generalize hfs : (({ s with k6_running := false } : RunnerState).active_faults.map Prod.snd) = fs
  have h : ∀ (fs : List ChaosFault) (t : RunnerState),
      (fs.foldl (fun st f => cleanup_fault_after_duration f st) t).health_score
        = t.health_score := by
    intro fs
    induction fs with
    | nil => exact fun t => rfl
    | cons f rest ih =>
      intro t
      simp only [List.foldl_cons]
      rw [ih, health_cleanup_fault]
  rw [h]

theorem health_wait (now : Int) (s : RunnerState) :
    (wait_for_stabilization now s).health_score = s.health_score := by
  unfold wait_for_stabilization
  split <;> rfl

theorem health_step (cfg : ChaosTest) (e : Event) (s : RunnerState)
    (h0 : 0 ≤ s.health_score) :
    0 ≤ (step cfg e s).health_score ∧ (step cfg e s).health_score ≤ s.health_score := by
  cases e with
  | chaosTick roll apply_ok now =>
    simp only [step, run_chaos_loop_tick]
    split
    · exact ⟨h0, le_refl _⟩
    · rw [health_inject_chaos_faults]
      exact ⟨h0, le_refl _⟩
  | metricsTick now p95 err => exact health_collect cfg.slo_gates now p95 err s h0
  | expiryFire fault =>
    show 0 ≤ (cleanup_fault_after_duration fault s).health_score ∧
      (cleanup_fault_after_duration fault s).health_score ≤ s.health_score
    rw [health_cleanup_fault]
    exact ⟨h0, le_refl _⟩
  | stabilizationFire now =>
    show 0 ≤ (wait_for_stabilization now s).health_score ∧
      (wait_for_stabilization now s).health_score ≤ s.health_score
    rw [health_wait]
    exact ⟨h0, le_refl _⟩
  | cleanupSweep =>
    show 0 ≤ (cleanup s).health_score ∧ (cleanup s).health_score ≤ s.health_score
    rw [health_cleanup]
    exact ⟨h0, le_refl _⟩

theorem health_run_bounds (cfg : ChaosTest) (events : List Event) :
    0 ≤ (run cfg events).health_score ∧ (run cfg events).health_score ≤ 100 := by
  unfold run
  have h : ∀ s : RunnerState, 0 ≤ s.health_score → s.health_score ≤ 100 →
      0 ≤ (events.foldl (fun s e => step cfg e s) s).health_score ∧
        (events.foldl (fun s e => step cfg e s) s).health_score ≤ 100 := by
    induction events with
    | nil => exact fun s h0 h100 => ⟨h0, h100⟩
    | cons e rest ih =>
      intro s h0 h100
      have hs := health_step cfg e s h0
      exact ih _ hs.1 (le_trans hs.2 h100)
  exact h initState (by norm_num [initState]) (by norm_num [initState])

theorem run_append_step (cfg : ChaosTest) (events : List Event) (e : Event) :
    run cfg (events ++ [e]) = step cfg e (run cfg events) := by
  simp [run, List.foldl_append]

/-! Helper lemmas about the backpressure flag and the k6 signal log. -/

theorem bp_apply_backpressure (s : RunnerState) :
    (apply_backpressure_actions s).backpressure_active = s.backpressure_active := by
  unfold apply_backpressure_actions
  dsimp only
  split <;> rfl

theorem bp_record (now : Int) (slo : SLOGate) (value : Rat) (s : RunnerState) :
    (record_slo_violation now slo value s).backpressure_active = s.backpressure_active := rfl

theorem activate_backpressure_of_active (s : RunnerState)
    (hA : s.backpressure_active = true) : activate_backpressure s = s := by
  unfold activate_backpressure
  simp [hA]

theorem bp_activate_true (s : RunnerState) :
    (activate_backpressure s).backpressure_active = true := by
  unfold activate_backpressure
  split
  · assumption
  · rw [bp_apply_backpressure]

theorem bp_check_slo_gates_mono (gates : List SLOGate) (now : Int)
    (metric_name : String) (value : Rat) (s : RunnerState)
    (hA : s.backpressure_active = true) :
    (check_slo_gates gates now metric_name value s).backpressure_active = true := by
  induction gates generalizing s with
  | nil => exact hA
  | cons slo rest ih =>
    simp only [check_slo_gates, List.foldl_cons] at ih ⊢
    by_cases hm : slo.metric == metric_name
    · by_cases hv : evaluate_slo_violation slo value
      · by_cases ht : slo.backpressure_trigger
        · simp only [hm, hv, ht, if_true]
          exact ih _ (bp_activate_true _)
        · simp only [hm, hv, if_true]
          rw [if_neg ht]
          exact ih _ (by rw [bp_record]; exact hA)
      · simp only [hm, hv, if_true, if_false]
        exact ih s hA
    · simp only [hm, if_false]
      exact ih s hA

theorem bp_collect_mono (gates : List SLOGate) (now : Int) (p95 err : Option Rat)
    (s : RunnerState) (hA : s.backpressure_active = true) :
    (collect_current_metrics gates now p95 err s).backpressure_active = true := by
  unfold collect_current_metrics
  cases p95 with
  | none =>
    cases err with
    | none => exact hA
    | some v => exact bp_check_slo_gates_mono _ _ _ _ _ hA
  | some v =>
    cases err with
    | none => exact bp_check_slo_gates_mono _ _ _ _ _ hA
    | some w =>
      exact bp_check_slo_gates_mono _ _ _ _ _ (bp_check_slo_gates_mono _ _ _ _ _ hA)

theorem bp_inject_fault (ok : Bool) (now : Int) (fault : ChaosFault) (s : RunnerState) :
    (inject_fault ok now fault s).backpressure_active = s.backpressure_active := by
  unfold inject_fault
  split <;> rfl

theorem bp_inject_chaos_faults (faults : List ChaosFault)
    (roll apply_ok : ChaosFault → Bool) (now : Int) (s : RunnerState) :
    (inject_chaos_faults faults roll apply_ok now s).backpressure_active
      = s.backpressure_active := by
  induction faults generalizing s with
  | nil => rfl
  | cons fault rest ih =>
    simp only [inject_chaos_faults, List.foldl_cons] at ih ⊢
    rw [ih]
    split
    · split
      · rw [bp_inject_fault]
      · rfl
    · rfl

theorem bp_cleanup_fault (fault : ChaosFault) (s : RunnerState) :
    (cleanup_fault_after_duration fault s).backpressure_active = s.backpressure_active := by
  unfold cleanup_fault_after_duration
  split <;> rfl

theorem bp_cleanup (s : RunnerState) :
    (cleanup s).backpressure_active = s.backpressure_active := by
  unfold cleanup
  have h : ∀ (fs : List ChaosFault) (t : RunnerState),
      (fs.foldl (fun st f => cleanup_fault_after_duration f st) t).backpressure_active
        = t.backpressure_active := by
    intro fs
    induction fs with
    | nil => exact fun t => rfl
    | cons f rest ih =>
      intro t
      simp only [List.foldl_cons]
      rw [ih, bp_cleanup_fault]
  rw [h]

theorem signals_wait (now : Int) (s : RunnerState) :
    (wait_for_stabilization now s).k6_signals = s.k6_signals := by
  unfold wait_for_stabilization
  split <;> rfl

/-! Helper lemmas about the violation list. -/

theorem violations_apply_backpressure (s : RunnerState) :
    (apply_backpressure_actions s).slo_violations = s.slo_violations := by
  unfold apply_backpressure_actions
  dsimp only
  split <;> rfl

theorem violations_activate (s : RunnerState) :
    (activate_backpressure s).slo_violations = s.slo_violations := by
  unfold activate_backpressure
  split
  · rfl
  · rw [violations_apply_backpressure]

theorem violations_record (now : Int) (slo : SLOGate) (value : Rat) (s : RunnerState) :
    (record_slo_violation now slo value s).slo_violations
      = s.slo_violations ++
        [{ timestamp := now
           slo_name := slo.name
           metric := slo.metric
           threshold := slo.threshold
           current_value := value
           operator := slo.operator
           severity := slo.severity }] := rfl

theorem violations_check_slo_gates_mem (gates : List SLOGate) (now : Int)
    (metric_name : String) (value : Rat) (s : RunnerState) (v : ViolationRecord)
    (hv : v ∈ (check_slo_gates gates now metric_name value s).slo_violations) :
    v ∈ s.slo_violations ∨ v.metric = metric_name := by
  induction gates generalizing s with
  | nil => exact Or.inl hv
  | cons slo rest ih =>
    simp only [check_slo_gates, List.foldl_cons] at ih hv
    by_cases hm : slo.metric == metric_name
    · have hmetric : slo.metric = metric_name := by simpa [beq_iff_eq] using hm
      by_cases hev : evaluate_slo_violation slo value
      · have hrec : ∀ w : ViolationRecord,
            w ∈ (record_slo_violation now slo value s).slo_violations →
            w ∈ s.slo_violations ∨ w.metric = metric_name := by
          intro w hw
          rw [violations_record] at hw
          rcases List.mem_append.mp hw with h | h
          · exact Or.inl h
          · right
            rw [List.mem_singleton.mp h]
            exact hmetric
        by_cases ht : slo.backpressure_trigger
        · simp only [hm, hev, ht, if_true] at hv
          rcases ih _ hv with h | h
          · rw [violations_activate] at h
            exact hrec v h
          · exact Or.inr h
        · simp only [hm, hev, ht, if_true, if_false] at hv
          rcases ih _ hv with h | h
          · exact hrec v h
          · exact Or.inr h
      · simp only [hm, hev, if_true, if_false] at hv
        exact ih s hv
    · simp only [hm, if_false] at hv
      exact ih s hv

theorem violations_collect_mem (gates : List SLOGate) (now : Int)
    (p95 err : Option Rat) (s : RunnerState) (v : ViolationRecord)
    (hv : v ∈ (collect_current_metrics gates now p95 err s).slo_violations) :
    v ∈ s.slo_violations ∨ v.metric = "response_time_p95" ∨ v.metric = "error_rate" := by
  unfold collect_current_metrics at hv
  cases p95 with
  | none =>
    cases err with
    | none => exact Or.inl hv
    | some w =>
      rcases violations_check_slo_gates_mem _ _ _ _ _ _ hv with h | h
      · exact Or.inl h
      · exact Or.inr (Or.inr h)
  | some w =>
    cases err with
    | none =>
      rcases violations_check_slo_gates_mem _ _ _ _ _ _ hv with h | h
      · exact Or.inl h
      · exact Or.inr (Or.inl h)
    | some w2 =>
      rcases violations_check_slo_gates_mem _ _ _ _ _ _ hv with h | h
      · rcases violations_check_slo_gates_mem _ _ _ _ _ _ h with h2 | h2
        · exact Or.inl h2
        · exact Or.inr (Or.inl h2)
      · exact Or.inr (Or.inr h)

theorem violations_inject_fault (ok : Bool) (now : Int) (fault : ChaosFault)
    (s : RunnerState) :
    (inject_fault ok now fault s).slo_violations = s.slo_violations := by
  unfold inject_fault
  split <;> rfl

theorem violations_inject_chaos_faults (faults : List ChaosFault)
    (roll apply_ok : ChaosFault → Bool) (now : Int) (s : RunnerState) :
    (inject_chaos_faults faults roll apply_ok now s).slo_violations = s.slo_violations := by
  induction faults generalizing s with
  | nil => rfl
  | cons fault rest ih =>
    simp only [inject_chaos_faults, List.foldl_cons] at ih ⊢
    rw [ih]
    split
    · split
      · rw [violations_inject_fault]
      · rfl
    · rfl

theorem violations_cleanup_fault (fault : ChaosFault) (s : RunnerState) :
    (cleanup_fault_after_duration fault s).slo_violations = s.slo_violations := by
  unfold cleanup_fault_after_duration
  split <;> rfl

theorem violations_cleanup (s : RunnerState) :
    (cleanup s).slo_violations = s.slo_violations := by
  unfold cleanup
  have h : ∀ (fs : List ChaosFault) (t : RunnerState),
      (fs.foldl (fun st f => cleanup_fault_after_duration f st) t).slo_violations
        = t.slo_violations := by
    intro fs
    induction fs with
    | nil => exact fun t => rfl
    | cons f rest ih =>
      intro t
      simp only [List.foldl_cons]
      rw [ih, violations_cleanup_fault]
  rw [h]

theorem violations_wait (now : Int) (s : RunnerState) :
    (wait_for_stabilization now s).slo_violations = s.slo_violations := by
  unfold wait_for_stabilization
  split <;> rfl

theorem violations_step_mem (cfg : ChaosTest) (e : Event) (s : RunnerState)
    (v : ViolationRecord) (hv : v ∈ (step cfg e s).slo_violations) :
    v ∈ s.slo_violations ∨ v.metric = "response_time_p95" ∨ v.metric = "error_rate" := by
  cases e with
  | chaosTick roll apply_ok now =>
    simp only [step, run_chaos_loop_tick] at hv
    split at hv
    · exact Or.inl hv
    · rw [violations_inject_chaos_faults] at hv
      exact Or.inl hv
  | metricsTick now p95 err => exact violations_collect_mem _ _ _ _ _ _ hv
  | expiryFire fault =>
    have : v ∈ (cleanup_fault_after_duration fault s).slo_violations := hv
    rw [violations_cleanup_fault] at this
    exact Or.inl this
  | stabilizationFire now =>
    have : v ∈ (wait_for_stabilization now s).slo_violations := hv
    rw [violations_wait] at this
    exact Or.inl this
  | cleanupSweep =>
    have : v ∈ (cleanup s).slo_violations := hv
    rw [violations_cleanup] at this
    exact Or.inl this

/-! Helper lemmas for backpressure activation and expiry independence. -/

theorem k6_record (now : Int) (slo : SLOGate) (value : Rat) (s : RunnerState) :
    (record_slo_violation now slo value s).k6_running = s.k6_running := rfl

theorem signals_record (now : Int) (slo : SLOGate) (value : Rat) (s : RunnerState) :
    (record_slo_violation now slo value s).k6_signals = s.k6_signals := rfl

/-- On a state with backpressure off and the k6 process alive, activation
sets the flag, bumps the Prometheus counter, sends exactly one `SIGUSR1`
rate-reduction signal and schedules exactly one stabilization check. -/
theorem activate_backpressure_of_inactive (s : RunnerState)
    (hN : s.backpressure_active = false) (hk6 : s.k6_running = true) :
    activate_backpressure s =
      { s with
        backpressure_active := true
        bp_counter_total := s.bp_counter_total + 1
        k6_signals := s.k6_signals ++ ["SIGUSR1"]
        pending_checks := s.pending_checks + 1 } := by
  unfold activate_backpressure apply_backpressure_actions
  simp [hN, hk6]

theorem registryHas_cleanup_fault (fault : ChaosFault) (s : RunnerState) :
    registryHas (cleanup_fault_after_duration fault s).active_faults fault.name = false := by
  unfold cleanup_fault_after_duration
  by_cases h : registryHas s.active_faults fault.name
  · simp [h, registryHas_remove_self]
  · simp only [Bool.not_eq_true] at h
    simp [h]

/-- The registry effect of an expiry firing does not depend on the
backpressure flag. -/
theorem cleanup_fault_bp_independent (fault : ChaosFault) (s : RunnerState) (b : Bool) :
    (cleanup_fault_after_duration fault { s with backpressure_active := b }).active_faults
      = (cleanup_fault_after_duration fault s).active_faults := by
  unfold cleanup_fault_after_duration
  by_cases h : registryHas s.active_faults fault.name
  · simp [h]
  · simp only [Bool.not_eq_true] at h
    simp [h]

/-! Helper lemmas for configuration loading. -/

theorem getKey_some {α : Type} (a : α) (key : String) :
    getKey (some a) key = Except.ok a := rfl

theorem except_isOk_exists {β : Type} (e : Except String β) (h : e.isOk = true) :
    ∃ b, e = Except.ok b := by
  cases e with
  | error err => simp [Except.isOk, Except.toBool] at h
  | ok b => exact ⟨b, rfl⟩

theorem mapM_except_isOk {α β : Type} (f : α → Except String β) (l : List α)
    (h : ∀ a ∈ l, (f a).isOk = true) : (l.mapM f).isOk = true := by
  induction l with
  | nil => rfl
  | cons a rest ih =>
    rcases except_isOk_exists _ (h a (List.mem_cons_self a rest)) with ⟨b, hb⟩
    rcases except_isOk_exists _ (ih (fun x hx => h x (List.mem_cons_of_mem a hx))) with ⟨bs, hbs⟩
    rw [List.mapM_cons, hb, hbs]
    rfl

theorem parse_fault_isOk (d : FaultYaml)
    (h1 : d.name.isSome = true) (h2 : d.type.isSome = true)
    (h3 : d.severity.isSome = true) (h4 : d.duration_seconds.isSome = true)
    (h5 : d.probability.isSome = true) : (parse_fault d).isOk = true := by
  rcases Option.isSome_iff_exists.mp h1 with ⟨a1, ha1⟩
  rcases Option.isSome_iff_exists.mp h2 with ⟨a2, ha2⟩
  rcases Option.isSome_iff_exists.mp h3 with ⟨a3, ha3⟩
  rcases Option.isSome_iff_exists.mp h4 with ⟨a4, ha4⟩
  rcases Option.isSome_iff_exists.mp h5 with ⟨a5, ha5⟩
  simp [parse_fault, ha1, ha2, ha3, ha4, ha5, getKey, Except.isOk, Except.toBool, Bind.bind, Except.bind, Pure.pure, Except.pure]

theorem parse_slo_isOk (d : SloYaml)
    (h1 : d.name.isSome = true) (h2 : d.metric.isSome = true)
    (h3 : d.threshold.isSome = true) (h4 : d.operator.isSome = true)
    (h5 : d.severity.isSome = true) : (parse_slo d).isOk = true := by
  rcases Option.isSome_iff_exists.mp h1 with ⟨a1, ha1⟩
  rcases Option.isSome_iff_exists.mp h2 with ⟨a2, ha2⟩
  rcases Option.isSome_iff_exists.mp h3 with ⟨a3, ha3⟩
  rcases Option.isSome_iff_exists.mp h4 with ⟨a4, ha4⟩
  rcases Option.isSome_iff_exists.mp h5 with ⟨a5, ha5⟩
  simp [parse_slo, ha1, ha2, ha3, ha4, ha5, getKey, Except.isOk, Except.toBool, Bind.bind, Except.bind, Pure.pure, Except.pure]

/-! Claim theorems. -/

/-- C1: for every run and at every instant — i.e. for every event sequence
interleaving scheduler ticks, metric polls, expiry firings, stabilization
checks and the cleanup sweep — the active-fault registry holds at most one
ActiveFault per fault name: its keys are pairwise distinct.  The injection
scheduler only injects a fault whose name has no active instance
(`_inject_chaos_faults` guard), and injection, expiry removal and the
cleanup sweep all preserve the property. -/
theorem active_fault_registry_one_per_name (cfg : ChaosTest) (events : List Event) :
    ((run cfg events).active_faults.map Prod.fst).Nodup :=
  regOk_run cfg events

/-- C2: the health score starts at 100; each recorded SLO violation moves it
to `max 0 (h - 20)` for a critical gate and `max 0 (h - 5)` otherwise
(an exact decrement of 20 resp. 5 whenever the clamp at 0 does not bite);
no step of a run ever increases it; and along every run it stays within
[0, 100]. -/
theorem health_score_bounds :
    initState.health_score = 100 ∧
    (∀ (now : Int) (slo : SLOGate) (value : Rat) (s : RunnerState),
      (record_slo_violation now slo value s).health_score =
        if slo.severity == "critical" then max 0 (s.health_score - 20)
        else max 0 (s.health_score - 5)) ∧
    (∀ (cfg : ChaosTest) (events : List Event) (e : Event),
      (run cfg (events ++ [e])).health_score ≤ (run cfg events).health_score) ∧
    (∀ (cfg : ChaosTest) (events : List Event),
      0 ≤ (run cfg events).health_score ∧ (run cfg events).health_score ≤ 100) := by
  refine ⟨rfl, fun now slo value s => rfl, fun cfg events e => ?_, health_run_bounds⟩
  rw [run_append_step]
  exact (health_step cfg e _ (health_run_bounds cfg events).1).2

/-- C7: when the applier raises during `_inject_fault` (`apply_ok = false`),
the exception is swallowed and the state is unchanged: the fault is not
registered, no expiry task is scheduled and the injected-fault counter is
not incremented; moreover a scheduler pass whose head fault fails to apply
continues with the remaining faults exactly as if the failed fault had been
skipped, so the loop is not aborted. -/
theorem inject_fault_failure_is_noop :
    (∀ (now : Int) (fault : ChaosFault) (s : RunnerState),
      inject_fault false now fault s = s) ∧
    (∀ (fault : ChaosFault) (rest : List ChaosFault)
       (roll apply_ok : ChaosFault → Bool) (now : Int) (s : RunnerState),
      apply_ok fault = false →
      inject_chaos_faults (fault :: rest) roll apply_ok now s
        = inject_chaos_faults rest roll apply_ok now s) := by
  constructor
  · intro now fault s
    rfl
  · intro fault rest roll apply_ok now s h
    simp only [inject_chaos_faults, List.foldl_cons]
    congr 1
    by_cases hr : roll fault
    · by_cases hh : registryHas s.active_faults fault.name
      · simp [hr, hh]
      · simp [hr, hh, h, inject_fault]
    · simp [hr]

/-- C7 witness: a concrete failed injection leaves the initial state
unchanged, and a tick whose only fault fails to apply equals the empty
tick. -/
theorem inject_fault_failure_is_noop_witness :
    inject_fault false 0 faultCpu initState = initState ∧
    ((fun _ => false) faultCpu = false ∧
      inject_chaos_faults [faultCpu] (fun _ => true) (fun _ => false) 0 initState
        = inject_chaos_faults [] (fun _ => true) (fun _ => false) 0 initState) :=
  ⟨inject_fault_failure_is_noop.1 0 faultCpu initState,
    rfl, inject_fault_failure_is_noop.2 faultCpu [] (fun _ => true) (fun _ => false) 0 initState rfl⟩

/-- C9: at a concrete run in which one fault is injected successfully and
expires before the end, the run summary reports `total_faults_injected = 0`
(it is the length of the list of *still active* faults, emptied by expiry
and the cleanup sweep), while the `CHAOS_FAULTS_INJECTED` counter recorded 1
injection — the summary field does not report the number of faults injected
over the whole run. -/
theorem total_faults_injected_reports_active_only :
    (generate_test_results cfgOne (run cfgOne
        [Event.chaosTick (fun _ => true) (fun _ => true) 0,
         Event.expiryFire faultCpu, Event.cleanupSweep])).total_faults_injected = 0 ∧
    (run cfgOne
        [Event.chaosTick (fun _ => true) (fun _ => true) 0,
         Event.expiryFire faultCpu, Event.cleanupSweep]).faults_injected_counter = 1 :=
  ⟨rfl, rfl⟩

/-- C10: every violation record ever appended during any run has as metric
one of the two strings polled by `_collect_current_metrics`:
`"response_time_p95"` or `"error_rate"`; gates configured with any other
metric name never match and so never produce a record. -/
theorem violation_metric_restricted (cfg : ChaosTest) (events : List Event)
    (v : ViolationRecord) (hv : v ∈ (run cfg events).slo_violations) :
    v.metric = "response_time_p95" ∨ v.metric = "error_rate" := by
  unfold run at hv
  have h : ∀ (evs : List Event) (s : RunnerState),
      (∀ w ∈ s.slo_violations,
        w.metric = "response_time_p95" ∨ w.metric = "error_rate") →
      ∀ w ∈ (evs.foldl (fun s e => step cfg e s) s).slo_violations,
        w.metric = "response_time_p95" ∨ w.metric = "error_rate" := by
    intro evs
    induction evs with
    | nil => exact fun s hs => hs
    | cons e rest ih =>
      intro s hs w hw
      refine ih _ ?_ w hw
      intro w2 hw2
      rcases violations_step_mem cfg e s w2 hw2 with h2 | h2
      · exact hs w2 h2
      · exact h2
  refine h events initState ?_ v hv
  intro w hw
  simp [initState] at hw

/-- C10 witness: a run with one metrics poll produces the concrete record
`recAt 0`, whose metric the theorem then pins to one of the two strings. -/
theorem violation_metric_restricted_witness :
    recAt 0 ∈ (run cfgOne [Event.metricsTick 0 (some 2) none]).slo_violations ∧
    ((recAt 0).metric = "response_time_p95" ∨ (recAt 0).metric = "error_rate") := by
  have hmem : recAt 0 ∈ (run cfgOne [Event.metricsTick 0 (some 2) none]).slo_violations := by
    decide
  exact ⟨hmem,
    violation_metric_restricted cfgOne [Event.metricsTick 0 (some 2) none] (recAt 0) hmem⟩

/-- C3: one qualifying violation on a backpressure-trigger gate is processed
as `record_slo_violation` followed by `_activate_backpressure` (the
violation-and-trigger branch of `_check_slo_gates`).  The first such
violation while the state is Normal (and the k6 process is alive) turns the
state Active and appends exactly one `SIGUSR1` rate-reduction signal; any
sequence of further qualifying violations processed while Active appends no
signal at all and keeps the state Active, while still appending one
violation record each; and every such violation applies the severity
decrement to the health score. -/
theorem backpressure_activation_idempotent (slo : SLOGate) :
    (∀ (now : Int) (value : Rat) (s : RunnerState),
      s.backpressure_active = false → s.k6_running = true →
      (activate_backpressure (record_slo_violation now slo value s)).backpressure_active
          = true ∧
        (activate_backpressure (record_slo_violation now slo value s)).k6_signals
          = s.k6_signals ++ ["SIGUSR1"]) ∧
    (∀ (vs : List (Int × Rat)) (s : RunnerState),
      s.backpressure_active = true →
      (vs.foldl (fun st p => activate_backpressure (record_slo_violation p.1 slo p.2 st)) s).k6_signals
          = s.k6_signals ∧
        (vs.foldl (fun st p => activate_backpressure (record_slo_violation p.1 slo p.2 st)) s).backpressure_active
          = true ∧
        (vs.foldl (fun st p => activate_backpressure (record_slo_violation p.1 slo p.2 st)) s).slo_violations.length
          = s.slo_violations.length + vs.length) ∧
    (∀ (now : Int) (value : Rat) (s : RunnerState),
      (activate_backpressure (record_slo_violation now slo value s)).health_score =
        if slo.severity == "critical" then max 0 (s.health_score - 20)
        else max 0 (s.health_score - 5)) := by
  refine ⟨?_, ?_, ?_⟩
  · intro now value s hN hk6
    have hrecN : (record_slo_violation now slo value s).backpressure_active = false := hN
    have hreck6 : (record_slo_violation now slo value s).k6_running = true := hk6
    rw [activate_backpressure_of_inactive _ hrecN hreck6]
    exact ⟨rfl, rfl⟩
  · intro vs
    induction vs with
    | nil => exact fun s hA => ⟨rfl, hA, by simp⟩
    | cons p rest ih =>
      intro s hA
      simp only [List.foldl_cons]
      have hrecA : (record_slo_violation p.1 slo p.2 s).backpressure_active = true := hA
      rw [activate_backpressure_of_active _ hrecA]
      have hnext := ih (record_slo_violation p.1 slo p.2 s) hrecA
      refine ⟨by rw [hnext.1, signals_record], hnext.2.1, ?_⟩
      rw [hnext.2.2, violations_record]
      simp [List.length_append]
      omega
  · intro now value s
    rw [health_activate]
    exact rfl

/-- C3 witness: from the initial state one qualifying violation on `sloCrit`
activates backpressure with exactly one `SIGUSR1`; two further violations
processed while Active leave the signal log of the active state unchanged. -/
theorem backpressure_activation_idempotent_witness :
    initState.backpressure_active = false ∧ initState.k6_running = true ∧
    sActive.backpressure_active = true ∧
    (activate_backpressure (record_slo_violation 0 sloCrit 2 initState)).k6_signals
      = initState.k6_signals ++ ["SIGUSR1"] ∧
    (([((10 : Int), (2 : Rat)), (20, 2)]).foldl
        (fun st p => activate_backpressure (record_slo_violation p.1 sloCrit p.2 st))
        sActive).k6_signals
      = sActive.k6_signals :=
  ⟨rfl, rfl, rfl,
    ((backpressure_activation_idempotent sloCrit).1 0 2 initState rfl rfl).2,
    ((backpressure_activation_idempotent sloCrit).2.1 [(10, 2), (20, 2)] sActive rfl).1⟩

/-- C4 counterexample to the claim as stated.  First: with one violation
record 86500 s old — none within the last 300 seconds — the stabilization
check does *not* transition Active to Normal, because
`_check_slo_stabilization` compares the `seconds` component of the elapsed
`timedelta` (86500 mod 86400 = 100 < 300) rather than the total elapsed
time.  Second: even when the check does transition (empty violation list),
no resume signal of any kind is sent to the load generator: the signal log
is unchanged. -/
theorem stabilization_claim_counterexample :
    ((sOldViolation.slo_violations.filter
        (fun v => decide (86500 - v.timestamp < 300))).length = 0) ∧
    sOldViolation.backpressure_active = true ∧
    (step cfgOne (Event.stabilizationFire 86500) sOldViolation).backpressure_active = true ∧
    sNoViolation.backpressure_active = true ∧
    (step cfgOne (Event.stabilizationFire 100) sNoViolation).backpressure_active = false ∧
    (step cfgOne (Event.stabilizationFire 100) sNoViolation).k6_signals
      = sNoViolation.k6_signals := by
  refine ⟨by decide, rfl, by decide, rfl, by decide, by decide⟩

/-- C4 (amended): when the stabilization check runs while Active and no
violation record has an elapsed-time seconds component
`(now - timestamp) mod 86400` below 300 (for runs shorter than one day this
coincides with "no record within the last 300 seconds"), the controller
transitions Active to Normal; no signal is sent to the load generator; a
state with the flag cleared lets the injection scheduler inject again; and
no event other than a stabilization check ever clears the Active flag. -/
theorem stabilization_check_transition (cfg : ChaosTest) (now : Int) (s : RunnerState)
    (hA : s.backpressure_active = true)
    (hclear : check_slo_stabilization now s = true) :
    (step cfg (Event.stabilizationFire now) s).backpressure_active = false ∧
    (step cfg (Event.stabilizationFire now) s).k6_signals = s.k6_signals ∧
    (∀ (faults : List ChaosFault) (roll apply_ok : ChaosFault → Bool) (t : Int)
       (s2 : RunnerState), s2.backpressure_active = false →
      run_chaos_loop_tick faults roll apply_ok t s2
        = inject_chaos_faults faults roll apply_ok t s2) ∧
    (∀ (e : Event) (s2 : RunnerState), s2.backpressure_active = true →
      (∀ t : Int, e ≠ Event.stabilizationFire t) →
      (step cfg e s2).backpressure_active = true) := by
  refine ⟨?_, ?_, ?_, ?_⟩
  · show (wait_for_stabilization now s).backpressure_active = false
    unfold wait_for_stabilization
    rw [if_pos hclear]
    rfl
  · show (wait_for_stabilization now s).k6_signals = s.k6_signals
    exact signals_wait now s
  · intro faults roll apply_ok t s2 h2
    unfold run_chaos_loop_tick
    rw [if_neg (by simp [h2])]
  · intro e s2 h2 hne
    cases e with
    | chaosTick roll apply_ok t =>
      simp only [step, run_chaos_loop_tick]
      rw [if_pos h2]
      exact h2
    | metricsTick t p95 err => exact bp_collect_mono _ _ _ _ _ h2
    | expiryFire fault =>
      show (cleanup_fault_after_duration fault s2).backpressure_active = true
      rw [bp_cleanup_fault]
      exact h2
    | stabilizationFire t => exact absurd rfl (hne t)
    | cleanupSweep =>
      show (cleanup s2).backpressure_active = true
      rw [bp_cleanup]
      exact h2

/-- C4 witness: the amended theorem applied to the backpressure-active state
with an empty violation list at t = 100. -/
theorem stabilization_check_transition_witness :
    sNoViolation.backpressure_active = true ∧
    check_slo_stabilization 100 sNoViolation = true ∧
    ((step cfgOne (Event.stabilizationFire 100) sNoViolation).backpressure_active = false ∧
      (step cfgOne (Event.stabilizationFire 100) sNoViolation).k6_signals
        = sNoViolation.k6_signals) :=
  ⟨rfl, by decide,
    (stabilization_check_transition cfgOne 100 sNoViolation rfl (by decide)).1,
    (stabilization_check_transition cfgOne 100 sNoViolation rfl (by decide)).2.1⟩

/-- C5 counterexample to the claim as stated: at t = 60 the stabilization
check of the active episode finds a violation inside the lookback window
(20 s old), yet the controller stays Active with *zero* stabilization
checks pending — no further check is scheduled, so it does remain Active
with no future stabilization check pending. -/
theorem stabilization_reschedule_counterexample :
    check_slo_stabilization 60 sRecentViolation = false ∧
    sRecentViolation.pending_checks = 1 ∧
    (step cfgOne (Event.stabilizationFire 60) sRecentViolation).backpressure_active = true ∧
    (step cfgOne (Event.stabilizationFire 60) sRecentViolation).pending_checks = 0 := by
  refine ⟨by decide, rfl, by decide, by decide⟩

/-- C5 (amended): when the stabilization check fires while Active and
violation records remain inside the lookback window of the code, the controller
stays Active, but the check merely completes: the number of pending
stabilization checks drops by one and nothing is rescheduled, so after the
single check of an activation episode the controller remains Active with no
future stabilization check pending. -/
theorem stabilization_no_reschedule (cfg : ChaosTest) (now : Int) (s : RunnerState)
    (hA : s.backpressure_active = true)
    (hrem : check_slo_stabilization now s = false) :
    (step cfg (Event.stabilizationFire now) s).backpressure_active = true ∧
    (step cfg (Event.stabilizationFire now) s).pending_checks = s.pending_checks - 1 := by
  constructor
  · show (wait_for_stabilization now s).backpressure_active = true
    unfold wait_for_stabilization
    rw [if_neg (by simp [hrem])]
    exact hA
  · rfl

/-- C5 witness: the amended theorem applied to the active state with a
20-second-old violation at t = 60. -/
theorem stabilization_no_reschedule_witness :
    sRecentViolation.backpressure_active = true ∧
    check_slo_stabilization 60 sRecentViolation = false ∧
    ((step cfgOne (Event.stabilizationFire 60) sRecentViolation).backpressure_active = true ∧
      (step cfgOne (Event.stabilizationFire 60) sRecentViolation).pending_checks
        = sRecentViolation.pending_checks - 1) :=
  ⟨rfl, by decide, stabilization_no_reschedule cfgOne 60 sRecentViolation rfl (by decide)⟩

/-- C6: a scheduler tick taken while backpressure is Active changes nothing
at all — no fault injected, no ActiveFault registered, the pending expiry
tasks untouched; while an expiry firing always removes its fault from the
registry, with a registry and pending-expiry effect that is independent of
the backpressure flag — suspension blocks only new injections and never
cancels or delays the expiry of a running fault. -/
theorem suspension_blocks_only_new_injections (cfg : ChaosTest)
    (roll apply_ok : ChaosFault → Bool) (now : Int) (s : RunnerState)
    (hA : s.backpressure_active = true) :
    step cfg (Event.chaosTick roll apply_ok now) s = s ∧
    (∀ (fault : ChaosFault) (s2 : RunnerState),
      registryHas (step cfg (Event.expiryFire fault) s2).active_faults fault.name = false) ∧
    (∀ (fault : ChaosFault) (s2 : RunnerState) (b : Bool),
      (step cfg (Event.expiryFire fault) { s2 with backpressure_active := b }).active_faults
          = (step cfg (Event.expiryFire fault) s2).active_faults ∧
        (step cfg (Event.expiryFire fault) { s2 with backpressure_active := b }).pending_expiries
          = (step cfg (Event.expiryFire fault) s2).pending_expiries) := by
  refine ⟨?_, ?_, ?_⟩
  · simp only [step, run_chaos_loop_tick]
    rw [if_pos hA]
  · intro fault s2
    exact registryHas_cleanup_fault fault s2
  · intro fault s2 b
    constructor
    · show (cleanup_fault_after_duration fault { s2 with backpressure_active := b }).active_faults
        = (cleanup_fault_after_duration fault s2).active_faults
      exact cleanup_fault_bp_independent fault s2 b
    · rfl

/-- C6 witness: a tick in the suspended state `sActive` is the identity, and
the expiry of `faultCpu` on a state where it is registered removes it
whether or not backpressure is active. -/
theorem suspension_blocks_only_new_injections_witness :
    sActive.backpressure_active = true ∧
    step cfgOne (Event.chaosTick (fun _ => true) (fun _ => true) 0) sActive = sActive ∧
    registryHas (step cfgOne (Event.expiryFire faultCpu) sActive).active_faults faultCpu.name
      = false :=
  ⟨rfl,
    (suspension_blocks_only_new_injections cfgOne (fun _ => true) (fun _ => true) 0 sActive rfl).1,
    (suspension_blocks_only_new_injections cfgOne (fun _ => true) (fun _ => true) 0 sActive rfl).2.1
      faultCpu sActive⟩

/-- C8 counterexample to the claim as stated: `faultYamlBad` has
`probability = 3/2 ∉ [0,1]` and `duration_seconds = 0 ≤ 0`, yet
`load_chaos_config` accepts the configuration that contains it —
registration succeeds instead of failing with a ConfigError. -/
theorem load_config_validation_counterexample :
    faultYamlBad.probability = some (3/2) ∧ (1 : Rat) < 3/2 ∧
    faultYamlBad.duration_seconds = some 0 ∧ (0 : Int) ≤ 0 ∧
    (load_chaos_config cfgOutOfRange).isOk = true := by
  refine ⟨rfl, by norm_num, rfl, by decide, by decide⟩

/-- C8 (amended): `load_chaos_config` performs no range validation at all;
it fails only on a missing required key.  Whenever all required keys are
present — regardless of the values of `probability` and `duration_seconds` —
loading succeeds. -/
theorem load_config_accepts_required_keys (cfg : ConfigYaml)
    (hname : cfg.name.isSome = true)
    (hdur : cfg.duration_minutes.isSome = true)
    (hfaults : ∀ f ∈ cfg.faults.getD [], f.name.isSome = true ∧ f.type.isSome = true ∧
      f.severity.isSome = true ∧ f.duration_seconds.isSome = true ∧
      f.probability.isSome = true)
    (hgates : ∀ g ∈ cfg.slo_gates.getD [], g.name.isSome = true ∧ g.metric.isSome = true ∧
      g.threshold.isSome = true ∧ g.operator.isSome = true ∧ g.severity.isSome = true) :
    (load_chaos_config cfg).isOk = true := by
  rcases except_isOk_exists _ (mapM_except_isOk parse_fault _ (fun f hf =>
    parse_fault_isOk f (hfaults f hf).1 (hfaults f hf).2.1 (hfaults f hf).2.2.1
      (hfaults f hf).2.2.2.1 (hfaults f hf).2.2.2.2)) with ⟨fs, hfs⟩
  rcases except_isOk_exists _ (mapM_except_isOk parse_slo _ (fun g hg =>
    parse_slo_isOk g (hgates g hg).1 (hgates g hg).2.1 (hgates g hg).2.2.1
      (hgates g hg).2.2.2.1 (hgates g hg).2.2.2.2)) with ⟨gs, hgs⟩
  rcases Option.isSome_iff_exists.mp hname with ⟨nm, hnm⟩
  rcases Option.isSome_iff_exists.mp hdur with ⟨dm, hdm⟩
  simp only [List.mapM] at hfs hgs
  simp [load_chaos_config, hfs, hgs, hnm, hdm, getKey, Except.isOk, Except.toBool,
    Bind.bind, Except.bind, Pure.pure, Except.pure, List.mapM]

/-- C8 witness: the amended theorem applied to the out-of-range but
key-complete configuration. -/
theorem load_config_accepts_required_keys_witness :
    cfgOutOfRange.name.isSome = true ∧
    cfgOutOfRange.duration_minutes.isSome = true ∧
    (load_chaos_config cfgOutOfRange).isOk = true :=
  ⟨rfl, rfl,
    load_config_accepts_required_keys cfgOutOfRange rfl rfl (by decide) (by decide)⟩

end ChaosRunnerModel
